import Mathlib

/-!
Shallow embedding of the storage layer (src/storage.ts, class DatabaseStorage)
and the route layer (registerRoutes) of the repository.

The relational store is modelled as lists of rows, one list per table, inside
a single Store value.  Generated identifiers are modelled as length-based
serials (the repository performs no deletes, so this coincides with an
auto-increment column).  The current wall-clock time (new Date()) is modelled
as an explicit natural-number field Store.now.  SQL ORDER BY is modelled with
Mathlib's List.insertionSort, which produces some list sorted under the given
relation - SQL leaves tie order unspecified, and every claim below only uses
sortedness and permutation facts.  Rational numbers stand in for JavaScript
float arithmetic in the one place it occurs (conversionRate).
-/

/-- Row of the contactSubmissions table. -/
structure ContactSubmission where
  id : Nat
  name : String
  email : String
  message : String
  status : String
  assignedTo : Option Nat
  createdAt : Nat
  updatedAt : Nat
  deriving DecidableEq

/-- Row of the pageViews table. -/
structure PageView where
  id : Nat
  path : String
  createdAt : Nat
  deriving DecidableEq

/-- Row of the clients table. -/
structure Client where
  id : Nat
  name : String
  deriving DecidableEq

/-- Row of the projects table. -/
structure Project where
  id : Nat
  name : String
  clientId : Nat
  status : String
  deriving DecidableEq

/-- Row of the engineers table. -/
structure Engineer where
  id : Nat
  name : String
  availability : String
  deriving DecidableEq

/-- The relational store reached through drizzle's db handle, plus the model
clock now standing for new Date(). -/
structure Store where
  contactSubmissions : List ContactSubmission
  pageViews : List PageView
  clients : List Client
  projects : List Project
  engineers : List Engineer
  now : Nat
  deriving DecidableEq

/-- A store with every table empty. -/
def emptyStore : Store :=
  { contactSubmissions := [], pageViews := [], clients := [], projects := [],
    engineers := [], now := 0 }

/-- Modelled from the spec: the InsertContactSubmission payload produced by
insertContactSubmissionSchema (shared/schema is not under src/): the
submitter's contact fields and the free-text message. -/
structure InsertContactSubmission where
  name : String
  email : String
  message : String
  deriving DecidableEq

/-- Modelled from the spec: InsertPageView payload (shared/schema is not
under src/): the visited path. -/
structure InsertPageView where
  path : String
  deriving DecidableEq

/-- Modelled from the spec: InsertClient payload (shared/schema is not under
src/): identity info for a portal customer. -/
structure InsertClient where
  name : String
  deriving DecidableEq

/-- Modelled from the spec: InsertProject payload (shared/schema is not
under src/): a name, the owning clientId and a status. -/
structure InsertProject where
  name : String
  clientId : Nat
  status : String
  deriving DecidableEq

/-- DatabaseStorage.createContactSubmission: insert one row and return it.
The generated id, the default status "new" and the default timestamps come
from the schema defaults (shared/schema, modelled from the spec). -/
def createContactSubmission (s : Store) (d : InsertContactSubmission) :
    ContactSubmission × Store :=
  let row : ContactSubmission :=
    { id := s.contactSubmissions.length + 1, name := d.name, email := d.email,
      message := d.message, status := "new", assignedTo := none,
      createdAt := s.now, updatedAt := s.now }
  (row, { s with contactSubmissions := s.contactSubmissions ++ [row] })

/-- Descending createdAt order on submissions: the ORDER BY
desc(contactSubmissions.createdAt) relation. -/
def subLater (a b : ContactSubmission) : Prop :=
  b.createdAt ≤ a.createdAt

instance : DecidableRel subLater :=
  fun a b => inferInstanceAs (Decidable (b.createdAt ≤ a.createdAt))

instance : IsTotal ContactSubmission subLater :=
  ⟨fun a b => Nat.le_total b.createdAt a.createdAt⟩

instance : IsTrans ContactSubmission subLater :=
  ⟨fun _ _ _ h1 h2 => Nat.le_trans h2 h1⟩

/-- DatabaseStorage.getContactSubmissions: select all rows ordered by
createdAt descending. -/
def getContactSubmissions (s : Store) : List ContactSubmission :=
  List.insertionSort subLater s.contactSubmissions

/-- DatabaseStorage.createPageView: insert one row and return it. -/
def createPageView (s : Store) (d : InsertPageView) : PageView × Store :=
  let row : PageView :=
    { id := s.pageViews.length + 1, path := d.path, createdAt := s.now }
  (row, { s with pageViews := s.pageViews ++ [row] })

/-- One row of the topPages group-by result: a path and its view count. -/
structure TopPage where
  path : String
  views : Nat
  deriving DecidableEq

/-- Number of PageView rows with the given path (the count() aggregate of
the group for that path). -/
def pathViews (pvs : List PageView) (p : String) : Nat :=
  (pvs.filter (fun v => v.path = p)).length

/-- The GROUP BY pageViews.path result: one TopPage per distinct path. -/
def pageGroups (pvs : List PageView) : List TopPage :=
  ((pvs.map (fun v => v.path)).dedup).map (fun p => ⟨p, pathViews pvs p⟩)

/-- Descending views order on group rows: the ORDER BY desc(count())
relation. -/
def moreViews (a b : TopPage) : Prop :=
  b.views ≤ a.views

instance : DecidableRel moreViews :=
  fun a b => inferInstanceAs (Decidable (b.views ≤ a.views))

instance : IsTotal TopPage moreViews :=
  ⟨fun a b => Nat.le_total b.views a.views⟩

instance : IsTrans TopPage moreViews :=
  ⟨fun _ _ _ h1 h2 => Nat.le_trans h2 h1⟩

/-- The topPages query of getAnalyticsDashboard: group by path, order by
count descending, limit 5. -/
def topPagesOf (pvs : List PageView) : List TopPage :=
  (List.insertionSort moreViews (pageGroups pvs)).take 5

/-- JavaScript Math.round: round to the nearest integer, halves toward
positive infinity. -/
def jsRound (q : ℚ) : ℤ :=
  ⌊q + 1 / 2⌋

/-- The object returned by DatabaseStorage.getAnalyticsDashboard. -/
structure Dashboard where
  totalVisitors : Nat
  pageViews : Nat
  contactForms : Nat
  conversionRate : ℚ
  topPages : List TopPage
  recentSubmissions : List ContactSubmission
  monthlyStats : List Unit
  deriving DecidableEq

/-- DatabaseStorage.getAnalyticsDashboard: two count queries over pageViews,
one over contactSubmissions, the rounded conversion rate, the topPages
group-by, the five most recent submissions, and the empty monthlyStats
placeholder. -/
def getAnalyticsDashboard (s : Store) : Dashboard :=
  let totalVisitors := s.pageViews.length
  let totalPageViews := s.pageViews.length
  let totalContacts := s.contactSubmissions.length
  let conversionRate : ℚ :=
    if totalVisitors > 0 then
      (jsRound (((totalContacts : ℚ) / (totalVisitors : ℚ)) * 100 * 100) : ℚ) / 100
    else 0
  { totalVisitors := totalVisitors
    pageViews := totalPageViews
    contactForms := totalContacts
    conversionRate := conversionRate
    topPages := topPagesOf s.pageViews
    recentSubmissions := (List.insertionSort subLater s.contactSubmissions).take 5
    monthlyStats := [] }

/-- DatabaseStorage.createClient: insert one row and return it. -/
def createClient (s : Store) (d : InsertClient) : Client × Store :=
  let row : Client := { id := s.clients.length + 1, name := d.name }
  (row, { s with clients := s.clients ++ [row] })

/-- DatabaseStorage.getClientProjects: select projects where clientId
matches. -/
def getClientProjects (s : Store) (clientId : Nat) : List Project :=
  s.projects.filter (fun p => p.clientId = clientId)

/-- DatabaseStorage.createProject: insert one row and return it. -/
def createProject (s : Store) (d : InsertProject) : Project × Store :=
  let row : Project :=
    { id := s.projects.length + 1, name := d.name, clientId := d.clientId,
      status := d.status }
  (row, { s with projects := s.projects ++ [row] })

/-- DatabaseStorage.getAvailableEngineers: select engineers where
availability equals the string "available". -/
def getAvailableEngineers (s : Store) : List Engineer :=
  s.engineers.filter (fun e => e.availability = "available")

/-- The updateData value bag of updateContactSubmissionStatus: status and
updatedAt always, assignedTo only when the argument is truthy (present and
nonzero, mirroring the JavaScript if (assignedTo) check). -/
structure UpdateData where
  status : String
  updatedAt : Nat
  assignedTo : Option Nat
  deriving DecidableEq

/-- Builds updateData exactly as the source does: status and updatedAt = now,
then assignedTo added only if truthy. -/
def buildUpdateData (now : Nat) (status : String) (assignedTo : Option Nat) :
    UpdateData :=
  { status := status, updatedAt := now,
    assignedTo :=
      match assignedTo with
      | some a => if a = 0 then none else some a
      | none => none }

/-- Applies the SET clause of the update to one row: only the columns present
in updateData change. -/
def setColumns (u : UpdateData) (r : ContactSubmission) : ContactSubmission :=
  let r1 := { r with status := u.status, updatedAt := u.updatedAt }
  match u.assignedTo with
  | some a => { r1 with assignedTo := some a }
  | none => r1

/-- DatabaseStorage.updateContactSubmissionStatus: update rows whose id
matches, return the first row of the RETURNING result - none when no row
matched (the source destructures an empty array into undefined and returns
it without failing). -/
def updateContactSubmissionStatus (s : Store) (id : Nat) (status : String)
    (assignedTo : Option Nat) : Option ContactSubmission × Store :=
  let u := buildUpdateData s.now status assignedTo
  let rows := s.contactSubmissions.map
    (fun r => if r.id = id then setColumns u r else r)
  ((rows.filter (fun r => r.id = id)).head?,
   { s with contactSubmissions := rows })

/-!  Route layer (src/unnamed/part_000, registerRoutes).  Each handler is a
function from a request body and the store to an HTTP response together with
the successor store.  The storage operations above never throw in the model,
so the catch branches for store failures are unreachable here; the ZodError
branches are reached exactly when schema validation fails. -/

/-- Request body of POST /api/contact: each schema field possibly absent. -/
structure ContactBody where
  name : Option String
  email : Option String
  message : Option String
  deriving DecidableEq

/-- Names of the required contact-submission fields absent from the body. -/
def missingContactFields (b : ContactBody) : List String :=
  (if b.name.isNone then ["name"] else []) ++
  (if b.email.isNone then ["email"] else []) ++
  (if b.message.isNone then ["message"] else [])

/-- Modelled from the spec: insertContactSubmissionSchema.parse
(shared/schema is not under src/) - accepts exactly the bodies carrying every
required field, and reports the missing fields otherwise. -/
def parseContactSubmission (b : ContactBody) :
    Except (List String) InsertContactSubmission :=
  match b.name, b.email, b.message with
  | some n, some e, some m => .ok ⟨n, e, m⟩
  | _, _, _ => .error (missingContactFields b)

/-- Response of POST /api/contact. -/
structure ContactResponse where
  httpStatus : Nat
  success : Bool
  submissionId : Option Nat
  errors : List String
  deriving DecidableEq

/-- The POST /api/contact handler: parse, create, respond 200 with the new
id; on a ZodError respond 400 with the itemized errors. -/
def postContact (s : Store) (b : ContactBody) : ContactResponse × Store :=
  match parseContactSubmission b with
  | .ok d =>
      let (sub, s1) := createContactSubmission s d
      ({ httpStatus := 200, success := true, submissionId := some sub.id,
         errors := [] }, s1)
  | .error errs =>
      ({ httpStatus := 400, success := false, submissionId := none,
         errors := errs }, s)

/-- Response of PATCH /api/contact-submissions/:id. -/
structure PatchResponse where
  httpStatus : Nat
  success : Bool
  submission : Option ContactSubmission
  deriving DecidableEq

/-- The PATCH /api/contact-submissions/:id handler: call
updateContactSubmissionStatus and respond 200 with whatever it returned.
Nothing in the update throws when the id matches no row, so the 500 branch
of the handler is unreachable in the model. -/
def patchContactSubmission (s : Store) (id : Nat) (status : String)
    (assignedTo : Option Nat) : PatchResponse × Store :=
  let (sub, s1) := updateContactSubmissionStatus s id status assignedTo
  ({ httpStatus := 200, success := true, submission := sub }, s1)

/-- Request body of POST /api/client/projects before the merge: the client
may supply any of these fields, including clientId and status. -/
structure ClientProjectBody where
  name : Option String
  clientId : Option Nat
  status : Option String
  deriving DecidableEq

/-- Modelled from the spec: insertProjectSchema.parse (shared/schema is not
under src/) - accepts exactly the bodies carrying every required project
field. -/
def parseInsertProject (b : ClientProjectBody) :
    Except (List String) InsertProject :=
  match b.name, b.clientId, b.status with
  | some n, some c, some st => .ok ⟨n, c, st⟩
  | _, _, _ => .error ["invalid project data"]

/-- Response of POST /api/client/projects. -/
structure ProjectResponse where
  httpStatus : Nat
  success : Bool
  project : Option Project
  errors : List String
  deriving DecidableEq

/-- The POST /api/client/projects handler: spread the request body, then
overwrite clientId with the hardcoded 1 and status with "planning", validate
the merged object, create the project and respond 200 with it. -/
def postClientProjects (s : Store) (b : ClientProjectBody) :
    ProjectResponse × Store :=
  let merged : ClientProjectBody :=
    { b with clientId := some 1, status := some "planning" }
  match parseInsertProject merged with
  | .ok d =>
      let (p, s1) := createProject s d
      ({ httpStatus := 200, success := true, project := some p,
         errors := [] }, s1)
  | .error errs =>
      ({ httpStatus := 400, success := false, project := none,
         errors := errs }, s)

/-!  Concrete stores used by the witness theorems. -/

/-- A sample submission row. -/
def sampleSub : ContactSubmission :=
  { id := 1, name := "Ada", email := "ada@example.com", message := "hi",
    status := "new", assignedTo := some 7, createdAt := 5, updatedAt := 5 }

/-- A sample page view row. -/
def sampleView : PageView :=
  { id := 1, path := "/a", createdAt := 3 }

/-- A store with one submission and one page view, clock at 9. -/
def storeOneEach : Store :=
  { emptyStore with
    contactSubmissions := [sampleSub], pageViews := [sampleView], now := 9 }

/-- A store with one submission and no page views. -/
def storeContactsOnly : Store :=
  { emptyStore with contactSubmissions := [sampleSub] }

/-!  Theorems for the claims. -/

/-- C3: for every store state, the dashboard satisfies
pageViews == totalVisitors, both being the count of all PageView rows. -/
theorem dashboard_pageViews_eq_totalVisitors (s : Store) :
    (getAnalyticsDashboard s).pageViews = (getAnalyticsDashboard s).totalVisitors ∧
    (getAnalyticsDashboard s).totalVisitors = s.pageViews.length :=
  ⟨rfl, rfl⟩

/-- Rounding to two decimal places, written from the spec's words (for
comparison with the conversionRate the code computes). -/
def round2dp (q : ℚ) : ℚ :=
  (⌊q * 100 + 1 / 2⌋ : ℚ) / 100

/-- C4: conversionRate equals contactForms / totalVisitors * 100 rounded to
two decimal places when totalVisitors is positive, and equals 0 when
totalVisitors is zero, whatever the ContactSubmission table holds. -/
theorem dashboard_conversionRate_spec (s : Store) :
    (0 < (getAnalyticsDashboard s).totalVisitors →
      (getAnalyticsDashboard s).conversionRate =
        round2dp (((getAnalyticsDashboard s).contactForms : ℚ) /
          ((getAnalyticsDashboard s).totalVisitors : ℚ) * 100)) ∧
    ((getAnalyticsDashboard s).totalVisitors = 0 →
      (getAnalyticsDashboard s).conversionRate = 0) := by
  constructor
  · intro h
    have h' : 0 < s.pageViews.length := h
    simp only [getAnalyticsDashboard, round2dp, jsRound, if_pos h']
  · intro h
    have h' : s.pageViews.length = 0 := h
    simp only [getAnalyticsDashboard]
    rw [if_neg (by omega)]

/-- Witness for C4 at concrete stores: one visitor and one contact gives the
rounded rate; no visitors but a contact gives zero. -/
theorem dashboard_conversionRate_spec_witness :
    (getAnalyticsDashboard storeOneEach).conversionRate =
      round2dp (((getAnalyticsDashboard storeOneEach).contactForms : ℚ) /
        ((getAnalyticsDashboard storeOneEach).totalVisitors : ℚ) * 100) ∧
    (getAnalyticsDashboard storeContactsOnly).conversionRate = 0 :=
  ⟨(dashboard_conversionRate_spec storeOneEach).1 (by decide),
   (dashboard_conversionRate_spec storeContactsOnly).2 (by decide)⟩

/-- C1, at the failing input: updating a submission id that matches no row
does not fail - it returns no row (undefined in the source) - and the PATCH
route then answers 200 with success true and no submission, not the 500 the
claim requires. -/
theorem patch_missing_id_answers_200 :
    (updateContactSubmissionStatus emptyStore 1 "closed" none).1 = none ∧
    (patchContactSubmission emptyStore 1 "closed" none).1.httpStatus = 200 ∧
    (patchContactSubmission emptyStore 1 "closed" none).1.success = true ∧
    (patchContactSubmission emptyStore 1 "closed" none).1.submission = none := by
  decide

/-- C8: getAvailableEngineers returns exactly the engineers whose
availability is the string "available"; a busy engineer never appears. -/
theorem availableEngineers_spec (s : Store) :
    (∀ e, e ∈ getAvailableEngineers s ↔
      e ∈ s.engineers ∧ e.availability = "available") ∧
    (∀ e, e.availability = "busy" → e ∉ getAvailableEngineers s) := by
  have hmem : ∀ e, e ∈ getAvailableEngineers s ↔
      e ∈ s.engineers ∧ e.availability = "available" := by
    intro e
    simp [getAvailableEngineers, List.mem_filter]
  refine ⟨hmem, fun e he hcontra => ?_⟩
  have := ((hmem e).mp hcontra).2
  rw [he] at this
  exact absurd this (by decide)

/-- A busy engineer row. -/
def busyEngineer : Engineer :=
  { id := 1, name := "Bo", availability := "busy" }

/-- A store containing one busy and one available engineer. -/
def storeEngineers : Store :=
  { emptyStore with engineers :=
      [busyEngineer, { id := 2, name := "Avi", availability := "available" }] }

/-- Witness for C8: the busy engineer is absent from the result on a
concrete store. -/
theorem availableEngineers_spec_witness :
    busyEngineer ∉ getAvailableEngineers storeEngineers :=
  (availableEngineers_spec storeEngineers).2 busyEngineer rfl

/-- C7: getClientProjects returns exactly the projects whose clientId equals
the argument; after createClient and then createProject with clientId X, the
created project is in getClientProjects X and projects of other clients are
not. -/
theorem clientProjects_spec (s : Store) (cid : Nat) (c : InsertClient)
    (d : InsertProject) :
    (∀ p, p ∈ getClientProjects s cid ↔ p ∈ s.projects ∧ p.clientId = cid) ∧
    ((createProject (createClient s c).2 d).1 ∈
       getClientProjects (createProject (createClient s c).2 d).2 d.clientId) ∧
    (∀ q, q.clientId ≠ d.clientId →
       q ∉ getClientProjects (createProject (createClient s c).2 d).2 d.clientId) := by
  refine ⟨?_, ?_, ?_⟩
  · intro p
    simp [getClientProjects, List.mem_filter]
  · simp [getClientProjects, createProject, createClient, List.mem_filter]
  · intro q hq hcontra
    rw [getClientProjects, List.mem_filter] at hcontra
    have := hcontra.2
    simp only [decide_eq_true_eq] at this
    exact hq this

/-- Witness for C7: on the empty store, a project created for client 3 shows
up under client 3 and a project row of client 4 does not. -/
theorem clientProjects_spec_witness :
    ((createProject (createClient emptyStore ⟨"Acme"⟩).2 ⟨"Site", 3, "planning"⟩).1 ∈
      getClientProjects
        (createProject (createClient emptyStore ⟨"Acme"⟩).2 ⟨"Site", 3, "planning"⟩).2 3) ∧
    ({ id := 9, name := "Other", clientId := 4, status := "planning" } : Project) ∉
      getClientProjects
        (createProject (createClient emptyStore ⟨"Acme"⟩).2 ⟨"Site", 3, "planning"⟩).2 3 :=
  ⟨(clientProjects_spec emptyStore 3 ⟨"Acme"⟩ ⟨"Site", 3, "planning"⟩).2.1,
   (clientProjects_spec emptyStore 3 ⟨"Acme"⟩ ⟨"Site", 3, "planning"⟩).2.2
     { id := 9, name := "Other", clientId := 4, status := "planning" } (by decide)⟩

/-- Helper: in a table with no duplicate ids, mapping the conditional update
over the rows and filtering for the target id yields exactly the updated
target row, provided the update preserves ids. -/
theorem filter_update_eq_single (f : ContactSubmission → ContactSubmission)
    (hf : ∀ x, (f x).id = x.id) :
    ∀ (l : List ContactSubmission) (id : Nat) (r : ContactSubmission),
      (l.map (fun x => x.id)).Nodup → r ∈ l → r.id = id →
      (l.map (fun x => if x.id = id then f x else x)).filter
        (fun x => x.id = id) = [f r] := by
  intro l
  induction l with
  | nil =>
    intro id r _ hr _
    cases hr
  | cons a t ih =>
    intro id r hnd hr hid
    rw [List.map_cons, List.nodup_cons] at hnd
    obtain ⟨ha, hndt⟩ := hnd
    have hta : ∀ x ∈ t, x.id ≠ a.id := by
      intro x hx hxa
      exact ha (List.mem_map.mpr ⟨x, hx, hxa⟩)
    rcases List.mem_cons.mp hr with rfl | hrt
    · rw [List.map_cons, if_pos hid, List.filter_cons]
      rw [if_pos (by simp [hf, hid])]
      have hnil : (t.map (fun x => if x.id = id then f x else x)).filter
          (fun x => x.id = id) = [] := by
        apply List.filter_eq_nil_iff.mpr
        intro y hy
        obtain ⟨x, hx, rfl⟩ := List.mem_map.mp hy
        by_cases hxid : x.id = id
        · exact absurd (hxid.trans hid.symm) (hta x hx)
        · simp [hxid]
      rw [hnil]
    · have haid : a.id ≠ id := fun h => hta r hrt (hid.trans h.symm)
      rw [List.map_cons, if_neg haid, List.filter_cons, if_neg (by simp [haid])]
      exact ih id r hndt hrt hid

/-- C2: updating the status of an existing id with no assignedTo argument
returns that row with its status replaced and updatedAt set to the clock,
every other field (assignedTo included) untouched; the stored table keeps
the row thus updated, keeps every other row unchanged and keeps its
length. -/
theorem updateStatus_no_assignedTo_spec (s : Store) (id : Nat) (st : String)
    (r : ContactSubmission)
    (hnd : (s.contactSubmissions.map (fun x => x.id)).Nodup)
    (hr : r ∈ s.contactSubmissions) (hid : r.id = id) :
    (updateContactSubmissionStatus s id st none).1 =
      some { r with status := st, updatedAt := s.now } ∧
    { r with status := st, updatedAt := s.now } ∈
      (updateContactSubmissionStatus s id st none).2.contactSubmissions ∧
    (∀ x ∈ s.contactSubmissions, x.id ≠ id →
      x ∈ (updateContactSubmissionStatus s id st none).2.contactSubmissions) ∧
    (updateContactSubmissionStatus s id st none).2.contactSubmissions.length =
      s.contactSubmissions.length := by
  have hf : ∀ x : ContactSubmission,
      (setColumns (buildUpdateData s.now st none) x).id = x.id := fun _ => rfl
  have hkey := filter_update_eq_single (setColumns (buildUpdateData s.now st none))
    hf s.contactSubmissions id r hnd hr hid
  have h1 : (updateContactSubmissionStatus s id st none).1 =
      ((s.contactSubmissions.map (fun x => if x.id = id then
        setColumns (buildUpdateData s.now st none) x else x)).filter
          (fun x => x.id = id)).head? := rfl
  have h2 : (updateContactSubmissionStatus s id st none).2.contactSubmissions =
      s.contactSubmissions.map (fun x => if x.id = id then
        setColumns (buildUpdateData s.now st none) x else x) := rfl
  refine ⟨?_, ?_, ?_, ?_⟩
  · rw [h1, hkey]
    rfl
  · rw [h2]
    refine List.mem_map.mpr ⟨r, hr, ?_⟩
    rw [if_pos hid]
    rfl
  · intro x hx hxid
    rw [h2]
    exact List.mem_map.mpr ⟨x, hx, if_neg hxid⟩
  · rw [h2, List.length_map]

/-- Witness for C2 on a one-row store: status "closed" is written, updatedAt
advances to the clock and the prior assignedTo (some 7) survives. -/
theorem updateStatus_no_assignedTo_spec_witness :
    (updateContactSubmissionStatus storeOneEach 1 "closed" none).1 =
      some { sampleSub with status := "closed", updatedAt := storeOneEach.now } ∧
    { sampleSub with status := "closed", updatedAt := storeOneEach.now } ∈
      (updateContactSubmissionStatus storeOneEach 1 "closed" none).2.contactSubmissions ∧
    (∀ x ∈ storeOneEach.contactSubmissions, x.id ≠ 1 →
      x ∈ (updateContactSubmissionStatus storeOneEach 1 "closed" none).2.contactSubmissions) ∧
    (updateContactSubmissionStatus storeOneEach 1 "closed" none).2.contactSubmissions.length =
      storeOneEach.contactSubmissions.length :=
  updateStatus_no_assignedTo_spec storeOneEach 1 "closed" sampleSub (by decide)
    (by decide) (by decide)

/-- C5: a body that validates gets 200 with success true and a submissionId
naming a row retrievable through getContactSubmissions; a body missing a
required field gets 400 with success false and a nonempty errors list. -/
theorem postContact_spec (s : Store) (b : ContactBody) :
    (∀ d, parseContactSubmission b = .ok d →
      (postContact s b).1.httpStatus = 200 ∧
      (postContact s b).1.success = true ∧
      ∃ row ∈ getContactSubmissions (postContact s b).2,
        (postContact s b).1.submissionId = some row.id) ∧
    ((b.name = none ∨ b.email = none ∨ b.message = none) →
      (postContact s b).1.httpStatus = 400 ∧
      (postContact s b).1.success = false ∧
      (postContact s b).1.errors ≠ []) := by
  obtain ⟨bn, be, bm⟩ := b
  constructor
  · intro d hd
    cases bn with
    | none => exact absurd hd (by simp [parseContactSubmission])
    | some n =>
      cases be with
      | none => exact absurd hd (by simp [parseContactSubmission])
      | some e =>
        cases bm with
        | none => exact absurd hd (by simp [parseContactSubmission])
        | some m =>
          have hd' : (⟨n, e, m⟩ : InsertContactSubmission) = d :=
            Except.ok.inj hd
          subst hd'
          refine ⟨rfl, rfl,
            ⟨(createContactSubmission s ⟨n, e, m⟩).1, ?_, rfl⟩⟩
          simp [postContact, parseContactSubmission, createContactSubmission,
            getContactSubmissions, List.mem_insertionSort]
  · intro h
    cases bn <;> cases be <;> cases bm <;>
      simp_all [postContact, parseContactSubmission, missingContactFields]

/-- Witness for C5: a complete body on the empty store gets 200 and a
retrievable id; a body with no name gets 400 with a nonempty errors list. -/
theorem postContact_spec_witness :
    ((postContact emptyStore ⟨some "N", some "e@x", some "hello"⟩).1.httpStatus = 200 ∧
     (postContact emptyStore ⟨some "N", some "e@x", some "hello"⟩).1.success = true ∧
     ∃ row ∈ getContactSubmissions
         (postContact emptyStore ⟨some "N", some "e@x", some "hello"⟩).2,
       (postContact emptyStore ⟨some "N", some "e@x", some "hello"⟩).1.submissionId =
         some row.id) ∧
    ((postContact emptyStore ⟨none, some "e@x", some "hello"⟩).1.httpStatus = 400 ∧
     (postContact emptyStore ⟨none, some "e@x", some "hello"⟩).1.success = false ∧
     (postContact emptyStore ⟨none, some "e@x", some "hello"⟩).1.errors ≠ []) :=
  ⟨(postContact_spec emptyStore ⟨some "N", some "e@x", some "hello"⟩).1
     ⟨"N", "e@x", "hello"⟩ rfl,
   (postContact_spec emptyStore ⟨none, some "e@x", some "hello"⟩).2 (Or.inl rfl)⟩

/-- C10: whenever POST /api/client/projects answers 200, the project in the
response has clientId 1 and status "planning" - whatever clientId or status
the request body carried - and the same row is stored. -/
theorem postClientProjects_hardcodes (s : Store) (b : ClientProjectBody)
    (h : (postClientProjects s b).1.httpStatus = 200) :
    ∃ p, (postClientProjects s b).1.project = some p ∧
      p.clientId = 1 ∧ p.status = "planning" ∧
      p ∈ (postClientProjects s b).2.projects := by
  obtain ⟨bn, bc, bs⟩ := b
  cases bn with
  | none => exact absurd h (by simp [postClientProjects, parseInsertProject])
  | some n =>
    refine ⟨(createProject s ⟨n, 1, "planning"⟩).1, rfl, rfl, rfl, ?_⟩
    simp [postClientProjects, parseInsertProject, createProject]

/-- Witness for C10: a body supplying clientId 42 and status "done" is
stored with clientId 1 and status "planning". -/
theorem postClientProjects_hardcodes_witness :
    ∃ p, (postClientProjects emptyStore ⟨some "Site", some 42, some "done"⟩).1.project =
        some p ∧
      p.clientId = 1 ∧ p.status = "planning" ∧
      p ∈ (postClientProjects emptyStore ⟨some "Site", some 42, some "done"⟩).2.projects :=
  postClientProjects_hardcodes emptyStore ⟨some "Site", some 42, some "done"⟩ rfl

/-- C9: getContactSubmissions returns all rows of the table (a permutation
of it) in descending createdAt order, and recentSubmissions is the first
five elements of that same ordering. -/
theorem submissions_ordering_spec (s : Store) :
    (getContactSubmissions s).Perm s.contactSubmissions ∧
    List.Pairwise (fun a b => b.createdAt ≤ a.createdAt) (getContactSubmissions s) ∧
    (getAnalyticsDashboard s).recentSubmissions = (getContactSubmissions s).take 5 :=
  ⟨List.perm_insertionSort subLater s.contactSubmissions,
   List.sorted_insertionSort subLater s.contactSubmissions,
   rfl⟩

/-- Appends one page view on the given path (the POST /api/analytics/pageview
effect), keeping only the successor store. -/
def addView (p : String) (s : Store) : Store :=
  (createPageView s ⟨p⟩).2

/-- The store reached from the empty store after creating six page views:
four on /a and two on /b. -/
def sixViewsStore : Store :=
  addView "/b" (addView "/b" (addView "/a" (addView "/a" (addView "/a"
    (addView "/a" emptyStore)))))

/-- C6: topPages holds at most five entries, ordered by descending view
count, each pairing a distinct path present in pageViews with its exact
count; any distinct path left out counts no more than every listed entry;
and after six page views (four on /a, two on /b) it lists /a with 4 before
/b with 2. -/
theorem topPages_spec (s : Store) :
    (getAnalyticsDashboard s).topPages.length ≤ 5 ∧
    List.Pairwise (fun a b => b.views ≤ a.views) (getAnalyticsDashboard s).topPages ∧
    (∀ e ∈ (getAnalyticsDashboard s).topPages,
      e.views = pathViews s.pageViews e.path ∧
      e.path ∈ s.pageViews.map (fun v => v.path)) ∧
    ((getAnalyticsDashboard s).topPages.map (fun e => e.path)).Nodup ∧
    (∀ p, p ∈ s.pageViews.map (fun v => v.path) →
      p ∉ (getAnalyticsDashboard s).topPages.map (fun e => e.path) →
      ∀ e ∈ (getAnalyticsDashboard s).topPages, pathViews s.pageViews p ≤ e.views) ∧
    (getAnalyticsDashboard sixViewsStore).topPages = [⟨"/a", 4⟩, ⟨"/b", 2⟩] := by
  have htp : (getAnalyticsDashboard s).topPages =
      (List.insertionSort moreViews (pageGroups s.pageViews)).take 5 := rfl
  have hperm : (List.insertionSort moreViews (pageGroups s.pageViews)).Perm
      (pageGroups s.pageViews) :=
    List.perm_insertionSort moreViews (pageGroups s.pageViews)
  have hsorted : List.Sorted moreViews
      (List.insertionSort moreViews (pageGroups s.pageViews)) :=
    List.sorted_insertionSort moreViews (pageGroups s.pageViews)
  have hmapl : (pageGroups s.pageViews).map (fun e => e.path) =
      (s.pageViews.map (fun v => v.path)).dedup := by
    simp only [pageGroups, List.map_map]
    have hcomp : ((fun e : TopPage => e.path) ∘
        fun p => (⟨p, pathViews s.pageViews p⟩ : TopPage)) = id := rfl
    rw [hcomp, List.map_id]
  refine ⟨?_, ?_, ?_, ?_, ?_, ?_⟩
  · rw [htp]
    exact List.length_take_le 5 _
  · rw [htp]
    exact hsorted.sublist (List.take_sublist 5 _)
  · intro e he
    rw [htp] at he
    have hel : e ∈ pageGroups s.pageViews :=
      hperm.mem_iff.mp (List.mem_of_mem_take he)
    obtain ⟨p, hp, rfl⟩ := List.mem_map.mp hel
    exact ⟨rfl, List.mem_dedup.mp hp⟩
  · have hnodl : ((pageGroups s.pageViews).map (fun e => e.path)).Nodup := by
      rw [hmapl]
      exact List.nodup_dedup _
    have hnodsrt : ((List.insertionSort moreViews (pageGroups s.pageViews)).map
        (fun e => e.path)).Nodup :=
      ((hperm.map (fun e => e.path)).symm).nodup hnodl
    rw [htp, List.map_take]
    exact hnodsrt.sublist (List.take_sublist 5 _)
  · intro p hp hnot e he
    have hpd : p ∈ (s.pageViews.map (fun v => v.path)).dedup :=
      List.mem_dedup.mpr hp
    have hmem : (⟨p, pathViews s.pageViews p⟩ : TopPage) ∈ pageGroups s.pageViews :=
      List.mem_map.mpr ⟨p, hpd, rfl⟩
    have hmemsrt : (⟨p, pathViews s.pageViews p⟩ : TopPage) ∈
        List.insertionSort moreViews (pageGroups s.pageViews) :=
      hperm.mem_iff.mpr hmem
    rw [← List.take_append_drop 5
      (List.insertionSort moreViews (pageGroups s.pageViews))] at hmemsrt
    rcases List.mem_append.mp hmemsrt with htk | hdr
    · exact absurd (List.mem_map.mpr ⟨⟨p, pathViews s.pageViews p⟩, htp ▸ htk, rfl⟩) hnot
    · rw [htp] at he
      exact hsorted.rel_of_mem_take_of_mem_drop he hdr
  · decide

/-- Witness for C6: on the six-view store, the listed entry for /a carries
exactly the count of /a page views. -/
theorem topPages_spec_witness :
    (⟨"/a", 4⟩ : TopPage).views = pathViews sixViewsStore.pageViews "/a" :=
  ((topPages_spec sixViewsStore).2.2.1 ⟨"/a", 4⟩ (by decide)).1
